import Mathlib

/-!
Shallow embedding of the bank-statement reconciliation workflow
(`ConciliationComponent`): its data model, session state, derived views and
event handlers, translated from the TypeScript source. Angular signals become
record fields; each handler becomes a pure function on the state, returning in
addition the network request it issues (if any) and the notification messages
it emits where a claim observes them. Asynchronous calls are split into the
synchronous start of the call and the success / failure callback, each applied
atomically, matching the single-threaded event model.
-/

namespace Conciliation

/-- One bank-statement line (`ConciliationOperation`). Only the fields the
workflow component reads are carried; purely informational metadata
(`reference`, `category`, scores, suggestions) is omitted. -/
structure ConciliationOperation where
  id : String
  date : String
  label : String
  amount : Int
  matchedTransactionId : Option String := none
  deriving DecidableEq

/-- An imported bank statement (`ConciliationStatement`); `operations` is
optional in the interface and the component defends against its absence. -/
structure ConciliationStatement where
  id : String
  startDate : String
  endDate : String
  operations : Option (List ConciliationOperation) := none
  deriving DecidableEq

/-- The terminal record returned by the validation call
(`ConciliationResult`); the component stores it opaquely. -/
structure ConciliationResult where
  statement : ConciliationStatement
  matchedOperations : List ConciliationOperation
  manualDecisions : List ConciliationOperation
  unmatchedOperations : List ConciliationOperation
  status : String
  deriving DecidableEq

/-- Response of the automatic-matching call (`ConciliationMatchResponse`);
the component applies `?? fallback` to each field, hence the `Option`s. -/
structure ConciliationMatchResponse where
  statement : Option ConciliationStatement
  matchedOperations : Option (List ConciliationOperation)
  unmatchedOperations : Option (List ConciliationOperation)
  deriving DecidableEq

/-- One manual adjudication record (`ManualOperationDecision`). -/
structure ManualOperationDecision where
  operation : ConciliationOperation
  «include» : Bool
  transactionId : Option String
  notes : String
  deriving DecidableEq

/-- One stage of the workflow (`ConciliationStepDefinition`). -/
structure ConciliationStepDefinition where
  key : String
  label : String
  description : String
  deriving DecidableEq

/-- The fixed four-stage list (`steps` array of the component). -/
def steps : List ConciliationStepDefinition :=
  [ { key := "import", label := "Import du relevé",
      description := "Chargez le fichier bancaire à concilier." },
    { key := "automatic", label := "Rapprochement automatique",
      description := "Associez automatiquement les opérations détectées." },
    { key := "manual", label := "Validation manuelle",
      description := "Complétez et ajustez les rapprochements restants." },
    { key := "confirmation", label := "Confirmation",
      description := "Confirmez et archivez la conciliation." } ]

/-- The component's mutable session state: one field per Angular signal.
A selected file is represented by its name. -/
structure ConciliationState where
  currentStepIndex : Nat
  selectedFile : Option String
  selectedFileName : Option String
  statement : Option ConciliationStatement
  automaticMatches : List ConciliationOperation
  unmatchedOperations : List ConciliationOperation
  manualDecisions : List ManualOperationDecision
  manualComment : String
  finalComment : String
  acknowledgement : Bool
  finalResult : Option ConciliationResult
  isImporting : Bool
  isMatching : Bool
  isValidating : Bool
  importError : Option String
  matchError : Option String
  validationError : Option String
  autoMatchExecuted : Bool
  deriving DecidableEq

/-- The signal initial values of the component. -/
def initialState : ConciliationState where
  currentStepIndex := 0
  selectedFile := none
  selectedFileName := none
  statement := none
  automaticMatches := []
  unmatchedOperations := []
  manualDecisions := []
  manualComment := ""
  finalComment := ""
  acknowledgement := true
  finalResult := none
  isImporting := false
  isMatching := false
  isValidating := false
  importError := none
  matchError := none
  validationError := none
  autoMatchExecuted := false

/-- JavaScript `String.prototype.trim()` (as called by the component),
re-expressed by structural recursion so that proofs can evaluate it: strips
leading and trailing whitespace. -/
def jsTrim (s : String) : String :=
  String.mk
    (((s.data.dropWhile Char.isWhitespace).reverse.dropWhile
        Char.isWhitespace).reverse)

/-- A string has length zero exactly when it is empty. -/
theorem string_length_eq_zero (s : String) : s.length = 0 ↔ s = "" := by
  cases s with
  | mk l =>
    simp only [String.length]
    constructor
    · intro h
      have hl : l = [] := List.length_eq_zero.mp h
      subst hl
      rfl
    · intro h
      have hl : l = [] := congrArg String.data h
      simp [hl]

/-- Derived `manualSelectionStats` record. -/
structure ManualSelectionStats where
  total : Nat
  included : Nat
  pending : Nat
  deriving DecidableEq

/-- `manualSelectionStats` computed view: counts of total, included and
pending manual decisions. -/
def manualSelectionStats (s : ConciliationState) : ManualSelectionStats :=
  let decisions := s.manualDecisions
  { total := decisions.length
    included := (decisions.filter (fun d => d.«include»)).length
    pending := (decisions.filter
      (fun d => !d.«include» && (jsTrim d.notes).length == 0)).length }

/-- `isManualStepComplete` computed view. -/
def isManualStepComplete (s : ConciliationState) : Bool :=
  let stats := manualSelectionStats s
  if stats.total == 0 then true else stats.pending == 0

/-- `canSubmitFinal` computed view: the submission preconditions. -/
def canSubmitFinal (s : ConciliationState) : Bool :=
  if s.isValidating then false
  else if !s.acknowledgement then false
  else if s.statement.isNone then false
  else if !s.autoMatchExecuted then false
  else if !(isManualStepComplete s) then false
  else true

/-- `progress` computed view, as an exact rational. -/
def progress (s : ConciliationState) : ℚ :=
  let totalSteps := steps.length
  if totalSteps ≤ 1 then 100
  else ((s.currentStepIndex : ℚ) / ((totalSteps : ℚ) - 1)) * 100

/-- `canAccessStep`: gate for entering stage `index` (an out-of-range index
is rejected; a stage at or before the current one is always allowed). -/
def canAccessStep (s : ConciliationState) (index : Nat) : Bool :=
  if steps.length ≤ index then false
  else if index ≤ s.currentStepIndex then true
  else match index with
    | 1 => s.statement.isSome
    | 2 => s.autoMatchExecuted
    | 3 => s.autoMatchExecuted && isManualStepComplete s
    | _ => false

/-- Payload entry for one automatic match inside the validation payload. -/
structure AutomaticMatchPayloadEntry where
  operationId : String
  transactionId : Option String
  amount : Int
  label : String
  deriving DecidableEq

/-- Payload entry for one manual decision inside the validation payload;
`notes` is trimmed, the empty string coerced to `none`. -/
structure ManualDecisionPayloadEntry where
  operationId : String
  «include» : Bool
  transactionId : Option String
  notes : Option String
  deriving DecidableEq

/-- The comments block of the validation payload. -/
structure CommentsPayload where
  manual : Option String
  final : Option String
  deriving DecidableEq

/-- The body sent by `validerConciliation`. -/
structure ValidationPayload where
  statementId : String
  automaticMatches : List AutomaticMatchPayloadEntry
  manualDecisions : List ManualDecisionPayloadEntry
  comments : CommentsPayload
  acknowledgement : Bool
  deriving DecidableEq

/-- The body sent by `rapprocherOperations`. -/
structure MatchRequestPayload where
  statementId : String
  operations : List ConciliationOperation
  deriving DecidableEq

/-- The TypeScript idiom `value.trim() || null`: the trimmed string, with the
empty string coerced to `none`. -/
def trimOrNone (value : String) : Option String :=
  if jsTrim value = "" then none else some (jsTrim value)

/-- Message set by `startImport` when no file is selected. -/
def msgSelectFile : String :=
  "Veuillez sélectionner un relevé bancaire à importer."

/-- Message set by the import error callback. -/
def msgImportFailed : String :=
  "Impossible d’importer le relevé bancaire pour le moment. Veuillez réessayer plus tard."

/-- Message set by the automatic-matching error callback. -/
def msgMatchFailed : String :=
  "Le rapprochement automatique n’a pas pu être exécuté. Réessayez dans quelques instants."

/-- Warning emitted by `submitFinalValidation` when the acknowledgement is
missing. -/
def msgAckRequired : String :=
  "Vous devez attester de l’exactitude de la conciliation avant de confirmer."

/-- Message set by the validation error callback. -/
def msgValidateFailed : String :=
  "La confirmation finale a échoué. Aucune donnée n’a été modifiée."

/-- `onFileSelected`: records the chosen file (clearing the import error) or
clears the selection when no file is given. -/
def onFileSelected (file : Option String) (s : ConciliationState) :
    ConciliationState :=
  match file with
  | none => { s with selectedFile := none, selectedFileName := none }
  | some f =>
      { s with selectedFile := some f, selectedFileName := some f,
               importError := none }

/-- Synchronous part of `startImport`: without a selected file it only sets
the import error; otherwise it marks the import in flight, clears errors and
the final result, and issues the import request (the returned file). -/
def startImport (s : ConciliationState) :
    ConciliationState × Option String :=
  match s.selectedFile with
  | none => ({ s with importError := some msgSelectFile }, none)
  | some f =>
      ({ s with isImporting := true, importError := none, matchError := none,
                validationError := none, finalResult := none }, some f)

/-- Success callback of the import call (with the `finalize` that clears the
in-flight flag): installs the new statement and resets all downstream
session data. -/
def importSuccess (stmt : ConciliationStatement) (s : ConciliationState) :
    ConciliationState :=
  { s with statement := some stmt
           currentStepIndex := 1
           autoMatchExecuted := false
           automaticMatches := []
           unmatchedOperations := stmt.operations.getD []
           manualDecisions := []
           manualComment := ""
           finalComment := ""
           acknowledgement := true
           finalResult := none
           selectedFile := none
           isImporting := false }

/-- Error callback of the import call (with its `finalize`). -/
def importFailure (s : ConciliationState) : ConciliationState :=
  { s with importError := some msgImportFailed, isImporting := false }

/-- Synchronous part of `launchAutomaticReconciliation`: a no-op without a
statement; otherwise marks matching in flight, clears the match error and the
final result, and issues the match request. -/
def launchAutomaticReconciliation (s : ConciliationState) :
    ConciliationState × Option MatchRequestPayload :=
  match s.statement with
  | none => (s, none)
  | some st =>
      ({ s with isMatching := true, matchError := none, finalResult := none },
       some { statementId := st.id, operations := st.operations.getD [] })

/-- Success callback of the automatic-matching call (with its `finalize`);
`captured` is the statement read at launch time, the fallback used when the
response carries none. Rebuilds the automatic-match set and the manual
decision ledger, one entry per unmatched operation. -/
def matchSuccess (captured : ConciliationStatement)
    (resp : ConciliationMatchResponse) (s : ConciliationState) :
    ConciliationState :=
  let nextStatement := resp.statement.getD captured
  let matched := resp.matchedOperations.getD []
  let unmatched := resp.unmatchedOperations.getD []
  { s with statement := some nextStatement
           automaticMatches := matched
           unmatchedOperations := unmatched
           manualDecisions := unmatched.map (fun op =>
             { operation := op, «include» := false,
               transactionId := op.matchedTransactionId, notes := "" })
           autoMatchExecuted := true
           isMatching := false }

/-- Error callback of the automatic-matching call (with its `finalize`). -/
def matchFailure (s : ConciliationState) : ConciliationState :=
  { s with matchError := some msgMatchFailed, isMatching := false }

/-- `goToManualStep`. -/
def goToManualStep (s : ConciliationState) : ConciliationState :=
  if s.autoMatchExecuted then { s with currentStepIndex := 2 } else s

/-- `proceedToConfirmation` (its warning notification is not observed by any
claim and is dropped). -/
def proceedToConfirmation (s : ConciliationState) : ConciliationState :=
  if isManualStepComplete s then { s with currentStepIndex := 3 } else s

/-- `navigateToStep`. -/
def navigateToStep (index : Nat) (s : ConciliationState) : ConciliationState :=
  if canAccessStep s index then { s with currentStepIndex := index } else s

/-- `onManualDecisionToggle`. -/
def onManualDecisionToggle (operationId : String) (inc : Bool)
    (s : ConciliationState) : ConciliationState :=
  { s with manualDecisions := s.manualDecisions.map (fun d =>
      if d.operation.id = operationId then { d with «include» := inc } else d) }

/-- `onManualTransactionChange`. -/
def onManualTransactionChange (operationId : String) (value : String)
    (s : ConciliationState) : ConciliationState :=
  let trimmed := jsTrim value
  { s with manualDecisions := s.manualDecisions.map (fun d =>
      if d.operation.id = operationId then
        { d with transactionId := if trimmed = "" then none else some trimmed }
      else d) }

/-- `onManualNoteChange`. -/
def onManualNoteChange (operationId : String) (value : String)
    (s : ConciliationState) : ConciliationState :=
  { s with manualDecisions := s.manualDecisions.map (fun d =>
      if d.operation.id = operationId then { d with notes := value } else d) }

/-- `onManualCommentChange`. -/
def onManualCommentChange (value : String) (s : ConciliationState) :
    ConciliationState :=
  { s with manualComment := value }

/-- `onAcknowledgeChange`. -/
def onAcknowledgeChange (value : Bool) (s : ConciliationState) :
    ConciliationState :=
  { s with acknowledgement := value }

/-- `onFinalCommentChange`. -/
def onFinalCommentChange (value : String) (s : ConciliationState) :
    ConciliationState :=
  { s with finalComment := value }

/-- The payload constructed inside `submitFinalValidation` (`none` when no
statement is present, in which case the method returns early). -/
def buildPayload (s : ConciliationState) : Option ValidationPayload :=
  s.statement.map (fun st =>
    { statementId := st.id
      automaticMatches := s.automaticMatches.map (fun op =>
        { operationId := op.id, transactionId := op.matchedTransactionId,
          amount := op.amount, label := op.label })
      manualDecisions := s.manualDecisions.map (fun d =>
        { operationId := d.operation.id, «include» := d.«include»,
          transactionId := d.transactionId, notes := trimOrNone d.notes })
      comments := { manual := trimOrNone s.manualComment,
                    final := trimOrNone s.finalComment }
      acknowledgement := s.acknowledgement })

/-- Synchronous part of `submitFinalValidation`: returns the next state, the
validation request issued (if any) and the notification messages emitted.
When a precondition is unmet it aborts, warning only about a missing
acknowledgement; otherwise it marks validation in flight and issues the
payload. -/
def submitFinalValidation (s : ConciliationState) :
    ConciliationState × Option ValidationPayload × List String :=
  if canSubmitFinal s then
    match buildPayload s with
    | none => (s, none, [])
    | some payload =>
        ({ s with isValidating := true, validationError := none },
         some payload, [])
  else
    (s, none, if s.acknowledgement then [] else [msgAckRequired])

/-- Success callback of the validation call (with its `finalize`). -/
def validateSuccess (result : ConciliationResult) (s : ConciliationState) :
    ConciliationState :=
  { s with finalResult := some result, isValidating := false }

/-- Error callback of the validation call (with its `finalize`). -/
def validateFailure (s : ConciliationState) : ConciliationState :=
  { s with validationError := some msgValidateFailed, isValidating := false }

/-- One externally triggered event: a user interaction or the arrival of one
asynchronous response. -/
inductive UserAction where
  | fileSelected (file : Option String)
  | startImport
  | importSucceeded (stmt : ConciliationStatement)
  | importFailed
  | launchMatch
  | matchSucceeded (resp : ConciliationMatchResponse)
  | matchFailed
  | goToManual
  | proceedConfirm
  | navigate (index : Nat)
  | toggleDecision (operationId : String) (inc : Bool)
  | changeTransaction (operationId value : String)
  | changeNote (operationId value : String)
  | changeManualComment (value : String)
  | acknowledge (value : Bool)
  | changeFinalComment (value : String)
  | submit
  | validateSucceeded (result : ConciliationResult)
  | validateFailed
  deriving DecidableEq

/-- Applying one event to the session state. A response callback can only
fire while the corresponding request is in flight, hence the flag guards; the
match-success callback uses the statement current at response time, which is
the one captured at launch whenever no import completes while the match is
pending (true of every concrete trace used below). -/
def step (s : ConciliationState) : UserAction → ConciliationState
  | .fileSelected file => onFileSelected file s
  | .startImport => (startImport s).1
  | .importSucceeded stmt => if s.isImporting then importSuccess stmt s else s
  | .importFailed => if s.isImporting then importFailure s else s
  | .launchMatch => (launchAutomaticReconciliation s).1
  | .matchSucceeded resp =>
      if s.isMatching then
        match s.statement with
        | some st => matchSuccess st resp s
        | none => s
      else s
  | .matchFailed => if s.isMatching then matchFailure s else s
  | .goToManual => goToManualStep s
  | .proceedConfirm => proceedToConfirmation s
  | .navigate index => navigateToStep index s
  | .toggleDecision operationId inc => onManualDecisionToggle operationId inc s
  | .changeTransaction operationId value =>
      onManualTransactionChange operationId value s
  | .changeNote operationId value => onManualNoteChange operationId value s
  | .changeManualComment value => onManualCommentChange value s
  | .acknowledge value => onAcknowledgeChange value s
  | .changeFinalComment value => onFinalCommentChange value s
  | .submit => (submitFinalValidation s).1
  | .validateSucceeded result =>
      if s.isValidating then validateSuccess result s else s
  | .validateFailed => if s.isValidating then validateFailure s else s

/-- Running a list of events from a state. -/
def run (s : ConciliationState) (events : List UserAction) :
    ConciliationState :=
  events.foldl step s

/-- The session state reached from the initial state by a list of events. -/
def reach (events : List UserAction) : ConciliationState :=
  run initialState events

/-! Concrete fixtures used by counterexamples and witnesses. -/

/-- Name of a concrete statement file. -/
def fileName1 : String := "releve-mai.csv"

/-- A concrete transaction identifier. -/
def tx7 : String := "tx-7"

/-- A concrete operation left unmatched by the matcher. -/
def op1 : ConciliationOperation :=
  { id := "op-1", date := "2024-05-03", label := "Prélèvement fournisseur",
    amount := -42, matchedTransactionId := none }

/-- A concrete operation the matcher pairs with a transaction. -/
def op2 : ConciliationOperation :=
  { id := "op-2", date := "2024-05-07", label := "Virement client",
    amount := 120, matchedTransactionId := some tx7 }

/-- A concrete imported statement with two operations. -/
def stmt1 : ConciliationStatement :=
  { id := "st-1", startDate := "2024-05-01", endDate := "2024-05-31",
    operations := some [op1, op2] }

/-- A match response pairing `op2` and leaving `op1` unmatched. -/
def respSplit : ConciliationMatchResponse :=
  { statement := some stmt1, matchedOperations := some [op2],
    unmatchedOperations := some [op1] }

/-- A match response pairing every operation. -/
def respAllMatched : ConciliationMatchResponse :=
  { statement := some stmt1, matchedOperations := some [op1, op2],
    unmatchedOperations := some [] }

/-- A concrete validation result. -/
def result1 : ConciliationResult :=
  { statement := stmt1, matchedOperations := [op1, op2], manualDecisions := [],
    unmatchedOperations := [], status := "validated" }

/-- Events of a session that has selected a file and imported it. -/
def importTrace : List UserAction :=
  [.fileSelected (some fileName1), .startImport, .importSucceeded stmt1]

/-- Events reaching the Confirmation stage with a resolved ledger, then
flipping the lone manual decision back to pending while standing on the
Confirmation stage. -/
def confirmationPendingTrace : List UserAction :=
  importTrace ++
    [.launchMatch, .matchSucceeded respSplit,
     .toggleDecision op1.id true, .proceedConfirm,
     .toggleDecision op1.id false]

/-- Events of a fully confirmed session (import, full automatic match,
submission, successful validation). -/
def confirmedTrace : List UserAction :=
  importTrace ++
    [.launchMatch, .matchSucceeded respAllMatched, .submit,
     .validateSucceeded result1]

end Conciliation

namespace Conciliation

/-- C1: amended. `canAccessStep 3` holds iff the Confirmation stage has
already been reached (`currentStepIndex ≥ 3`) or automatic matching has
completed and the manual decision ledger is complete. -/
theorem canAccessStep_confirmation_iff (s : ConciliationState) :
    canAccessStep s 3 = true ↔
      3 ≤ s.currentStepIndex ∨
        (s.autoMatchExecuted = true ∧ isManualStepComplete s = true) := by
  by_cases h : 3 ≤ s.currentStepIndex <;>
    simp [canAccessStep, steps, h, Bool.and_eq_true]

/-- C1: counterexample to the claim as stated. In the reachable state that
stood on the Confirmation stage and then flipped its only manual decision
back to pending, `canAccessStep 3` is still true although the ledger is no
longer complete. -/
theorem canAccessStep_confirmation_cex :
    canAccessStep (reach confirmationPendingTrace) 3 = true ∧
      isManualStepComplete (reach confirmationPendingTrace) = false ∧
      (reach confirmationPendingTrace).autoMatchExecuted = true := by decide

/-- C2: a manual decision ledger is complete iff no entry is pending, where
pending means the include flag is off and the notes trim to the empty
string; an empty ledger is complete. -/
theorem isManualStepComplete_iff (s : ConciliationState) :
    (isManualStepComplete s = true ↔
      ∀ d ∈ s.manualDecisions,
        ¬(d.«include» = false ∧ jsTrim d.notes = "")) ∧
      isManualStepComplete { s with manualDecisions := [] } = true := by
  constructor
  · cases hd : s.manualDecisions with
    | nil => simp [isManualStepComplete, manualSelectionStats, hd]
    | cons a l =>
        simp only [isManualStepComplete, manualSelectionStats, hd]
        simp [List.filter_eq_nil_iff, List.length_eq_zero,
          string_length_eq_zero]
  · simp [isManualStepComplete, manualSelectionStats]

/-- C3: amended. When a submission precondition is unmet
(`canSubmitFinal` is false), `submitFinalValidation` leaves the session
state unchanged and issues no network request; a warning message is emitted
exactly when the acknowledgement flag is off — the other unmet preconditions
abort silently. -/
theorem submitFinalValidation_blocked (s : ConciliationState)
    (h : canSubmitFinal s = false) :
    (submitFinalValidation s).1 = s ∧ (submitFinalValidation s).2.1 = none ∧
      (submitFinalValidation s).2.2 =
        (if s.acknowledgement = true then [] else [msgAckRequired]) := by
  simp [submitFinalValidation, h]

/-- Witness for `submitFinalValidation_blocked` at the initial state, whose
missing statement blocks submission. -/
theorem submitFinalValidation_blocked_witness :
    (submitFinalValidation initialState).1 = initialState ∧
      (submitFinalValidation initialState).2.1 = none ∧
      (submitFinalValidation initialState).2.2 =
        (if initialState.acknowledgement = true then [] else [msgAckRequired]) :=
  submitFinalValidation_blocked initialState (by decide)

/-- C3: counterexample to the claim as stated. At the initial state the
statement precondition (among others) is unmet, yet the abort surfaces no
message at all — only the missing-acknowledgement case produces one. -/
theorem submitFinalValidation_silent_cex :
    canSubmitFinal initialState = false ∧ initialState.statement = none ∧
      initialState.acknowledgement = true ∧
      submitFinalValidation initialState = (initialState, none, []) := by
  decide

/-- C4: amended. Only the submission call is guarded by its in-flight flag:
while `isValidating` is set, `submitFinalValidation` leaves the state
unchanged and issues no request. (The import and automatic-match triggers
carry no such guard, see the counterexample.) -/
theorem submit_exclusive_inflight (s : ConciliationState)
    (h : s.isValidating = true) :
    (submitFinalValidation s).1 = s ∧
      (submitFinalValidation s).2.1 = none := by
  have hc : canSubmitFinal s = false := by simp [canSubmitFinal, h]
  simp [submitFinalValidation, hc]

/-- A state whose submission call is in flight. -/
def validatingState : ConciliationState :=
  { initialState with isValidating := true }

/-- Witness for `submit_exclusive_inflight` at a concrete in-flight state. -/
theorem submit_exclusive_inflight_witness :
    (submitFinalValidation validatingState).1 = validatingState ∧
      (submitFinalValidation validatingState).2.1 = none :=
  submit_exclusive_inflight validatingState rfl

/-- A session whose import call is in flight (file still selected). -/
def importingState : ConciliationState :=
  reach [.fileSelected (some fileName1), .startImport]

/-- A session whose automatic-match call is in flight. -/
def matchingState : ConciliationState :=
  reach (importTrace ++ [.launchMatch])

/-- C4: counterexample to the claim as stated. With an import already in
flight, `startImport` fires a second import request instead of refusing, and
with a match already in flight, `launchAutomaticReconciliation` fires a
second match request: neither checks its in-flight flag. -/
theorem inflight_retrigger_cex :
    importingState.isImporting = true ∧
      (startImport importingState).2 = some fileName1 ∧
      matchingState.isMatching = true ∧
      (launchAutomaticReconciliation matchingState).2 =
        some { statementId := stmt1.id, operations := [op1, op2] } := by
  decide

/-- C5: amended. When the automatic-matching call fails, the statement, the
automatic-match set, the manual decision ledger and the unmatched set are
exactly as before the call, the match error message is surfaced, and for a
session that has only imported (`autoMatchExecuted` false, still at or
before the Automatic stage) entry into the Manual stage stays disallowed;
however the final result is cleared by the launch itself, so it is `none`
after the failure regardless of its prior value. -/
theorem matchFailure_preserves_session (s : ConciliationState)
    (st : ConciliationStatement) (h : s.statement = some st) :
    (matchFailure (launchAutomaticReconciliation s).1).statement =
        s.statement ∧
      (matchFailure (launchAutomaticReconciliation s).1).automaticMatches =
        s.automaticMatches ∧
      (matchFailure (launchAutomaticReconciliation s).1).manualDecisions =
        s.manualDecisions ∧
      (matchFailure (launchAutomaticReconciliation s).1).unmatchedOperations =
        s.unmatchedOperations ∧
      (matchFailure (launchAutomaticReconciliation s).1).matchError =
        some msgMatchFailed ∧
      (matchFailure (launchAutomaticReconciliation s).1).finalResult = none ∧
      (matchFailure (launchAutomaticReconciliation s).1).currentStepIndex =
        s.currentStepIndex ∧
      (matchFailure (launchAutomaticReconciliation s).1).autoMatchExecuted =
        s.autoMatchExecuted ∧
      (s.autoMatchExecuted = false → s.currentStepIndex ≤ 1 →
        canAccessStep (matchFailure (launchAutomaticReconciliation s).1) 2 =
          false) := by
  refine ⟨?_, ?_, ?_, ?_, ?_, ?_, ?_, ?_, ?_⟩ <;>
    simp [launchAutomaticReconciliation, h, matchFailure]
  intro h1 h2
  simp [canAccessStep, steps, h1]
  omega

/-- Witness for `matchFailure_preserves_session` at a freshly imported
session. -/
theorem matchFailure_preserves_session_witness :
    (matchFailure
          (launchAutomaticReconciliation (reach importTrace)).1).statement
        = (reach importTrace).statement ∧
      canAccessStep
        (matchFailure (launchAutomaticReconciliation (reach importTrace)).1) 2
        = false := by
  have h := matchFailure_preserves_session (reach importTrace) stmt1 (by decide)
  exact ⟨h.1, h.2.2.2.2.2.2.2.2 (by decide) (by decide)⟩

/-- C5: counterexample to the claim as stated. In a session that already
holds a final result, a failing automatic-match call does not retain it: the
launch clears the final result before the call, so after the failure it is
gone. -/
theorem matchFailure_clears_result_cex :
    (reach confirmedTrace).finalResult = some result1 ∧
      (reach (confirmedTrace ++ [.launchMatch, .matchFailed])).finalResult =
        none ∧
      (reach (confirmedTrace ++ [.launchMatch, .matchFailed])).statement =
        (reach confirmedTrace).statement := by
  decide

/-- C6: confirmed. A successful import resets every piece of downstream
session data (automatic matches, manual ledger, final result, both comments,
the auto-match flag), and the next successful automatic-match call rebuilds
the manual decision ledger with exactly one entry per returned unmatched
operation, each initialized with the include flag off and empty notes. -/
theorem import_resets_downstream (stmt : ConciliationStatement)
    (s : ConciliationState) (captured : ConciliationStatement)
    (resp : ConciliationMatchResponse) :
    (importSuccess stmt s).automaticMatches = [] ∧
      (importSuccess stmt s).manualDecisions = [] ∧
      (importSuccess stmt s).finalResult = none ∧
      (importSuccess stmt s).manualComment = "" ∧
      (importSuccess stmt s).finalComment = "" ∧
      (importSuccess stmt s).autoMatchExecuted = false ∧
      (matchSuccess captured resp (importSuccess stmt s)).manualDecisions.length
        = (resp.unmatchedOperations.getD []).length ∧
      ∀ d ∈ (matchSuccess captured resp (importSuccess stmt s)).manualDecisions,
        d.«include» = false ∧ d.notes = "" := by
  refine ⟨rfl, rfl, rfl, rfl, rfl, rfl, ?_, ?_⟩
  · simp [matchSuccess]
  · intro d hd
    simp only [matchSuccess, List.mem_map] at hd
    obtain ⟨op, _, rfl⟩ := hd
    exact ⟨rfl, rfl⟩

/-- C7: confirmed. The submission payload is a deterministic function of the
statement, the automatic matches, the manual decisions, the two comments and
the acknowledgement flag: any two states agreeing on those build the same
payload, and a permitted submission sends exactly that payload. -/
theorem buildPayload_deterministic (s1 s2 : ConciliationState)
    (hst : s1.statement = s2.statement)
    (ham : s1.automaticMatches = s2.automaticMatches)
    (hmd : s1.manualDecisions = s2.manualDecisions)
    (hmc : s1.manualComment = s2.manualComment)
    (hfc : s1.finalComment = s2.finalComment)
    (hak : s1.acknowledgement = s2.acknowledgement) :
    buildPayload s1 = buildPayload s2 ∧
      (canSubmitFinal s1 = true →
        (submitFinalValidation s1).2.1 = buildPayload s1) := by
  constructor
  · simp [buildPayload, hst, ham, hmd, hmc, hfc, hak]
  · intro hc
    cases hb : buildPayload s1 with
    | none => simp [submitFinalValidation, hc, hb]
    | some p => simp [submitFinalValidation, hc, hb]

/-- Witness for `buildPayload_deterministic`: a confirmed session and the
same session moved back to the Import stage build the same payload, and its
submission sends that payload. -/
theorem buildPayload_deterministic_witness :
    buildPayload (reach confirmedTrace) =
        buildPayload { reach confirmedTrace with currentStepIndex := 0 } ∧
      (submitFinalValidation (reach confirmedTrace)).2.1 =
        buildPayload (reach confirmedTrace) := by
  have h := buildPayload_deterministic (reach confirmedTrace)
    { reach confirmedTrace with currentStepIndex := 0 }
    rfl rfl rfl rfl rfl rfl
  exact ⟨h.1, h.2 (by decide)⟩

/-- Mapping a conditional per-entry rewrite over a ledger none of whose
entries carries the targeted operation id changes nothing. -/
theorem map_cond_eq_self (l : List ManualOperationDecision)
    (operationId : String)
    (g : ManualOperationDecision → ManualOperationDecision)
    (h : ∀ d ∈ l, d.operation.id ≠ operationId) :
    (l.map fun d => if d.operation.id = operationId then g d else d) = l := by
  induction l with
  | nil => rfl
  | cons a t ih =>
      have ha : a.operation.id ≠ operationId := h a (by simp)
      simp only [List.map_cons, if_neg ha]
      rw [ih fun d hd => h d (List.mem_cons_of_mem a hd)]

/-- C8: confirmed. A manual-decision update (include toggle, transaction
change, note change) whose operation id is absent from the ledger leaves the
whole state unchanged; one whose operation id is present preserves the
ledger length and order, rewrites the entry at the id's position to the
single modified copy, and leaves entries with other ids untouched. -/
theorem manualDecision_updates_frame (s : ConciliationState)
    (operationId : String) (inc : Bool) (value : String) :
    ((∀ d ∈ s.manualDecisions, d.operation.id ≠ operationId) →
        onManualDecisionToggle operationId inc s = s ∧
          onManualTransactionChange operationId value s = s ∧
          onManualNoteChange operationId value s = s) ∧
      ((onManualDecisionToggle operationId inc s).manualDecisions.length =
          s.manualDecisions.length ∧
        (onManualTransactionChange operationId value s).manualDecisions.length
          = s.manualDecisions.length ∧
        (onManualNoteChange operationId value s).manualDecisions.length =
          s.manualDecisions.length) ∧
      (∀ (i : Nat) (d : ManualOperationDecision),
        s.manualDecisions[i]? = some d → d.operation.id ≠ operationId →
          (onManualDecisionToggle operationId inc s).manualDecisions[i]? =
              some d ∧
            (onManualTransactionChange operationId value
                s).manualDecisions[i]? = some d ∧
            (onManualNoteChange operationId value s).manualDecisions[i]? =
              some d) ∧
      (∀ (i : Nat) (d : ManualOperationDecision),
        s.manualDecisions[i]? = some d → d.operation.id = operationId →
          (onManualDecisionToggle operationId inc s).manualDecisions[i]? =
              some { d with «include» := inc } ∧
            (onManualTransactionChange operationId value
                s).manualDecisions[i]? =
              some { d with transactionId :=
                (if jsTrim value = "" then none else some (jsTrim value)) } ∧
            (onManualNoteChange operationId value s).manualDecisions[i]? =
              some { d with notes := value }) := by
  refine ⟨?_, ?_, ?_, ?_⟩
  · intro hnone
    refine ⟨?_, ?_, ?_⟩ <;>
      · simp only [onManualDecisionToggle, onManualTransactionChange,
          onManualNoteChange]
        rw [map_cond_eq_self _ _ _ hnone]
  · refine ⟨?_, ?_, ?_⟩ <;>
      simp [onManualDecisionToggle, onManualTransactionChange,
        onManualNoteChange]
  · intro i d hi hd
    refine ⟨?_, ?_, ?_⟩ <;>
      simp [onManualDecisionToggle, onManualTransactionChange,
        onManualNoteChange, List.getElem?_map, hi, hd]
  · intro i d hi hd
    refine ⟨?_, ?_, ?_⟩ <;>
      simp [onManualDecisionToggle, onManualTransactionChange,
        onManualNoteChange, List.getElem?_map, hi, hd]

/-- A session standing on the Manual stage with its single decision still
pending. -/
def manualPendingState : ConciliationState :=
  reach (importTrace ++ [.launchMatch, .matchSucceeded respSplit, .goToManual])

/-- The pending ledger entry created for `op1` by the automatic match. -/
def pendingDecision1 : ManualOperationDecision :=
  { operation := op1, «include» := false, transactionId := none, notes := "" }

/-- The same entry with its include flag switched on. -/
def includedDecision1 : ManualOperationDecision :=
  { operation := op1, «include» := true, transactionId := none, notes := "" }

/-- Witness for `manualDecision_updates_frame`: on a concrete one-entry
ledger, an unknown id is a no-op and a known id rewrites the single entry. -/
theorem manualDecision_updates_frame_witness :
    onManualDecisionToggle op2.id true manualPendingState =
        manualPendingState ∧
      (onManualDecisionToggle op1.id true
          manualPendingState).manualDecisions[0]? = some includedDecision1 := by
  have hu := manualDecision_updates_frame manualPendingState op2.id true tx7
  have hk := manualDecision_updates_frame manualPendingState op1.id true tx7
  refine ⟨(hu.1 (by decide)).1, ?_⟩
  have h0 := (hk.2.2.2 0 pendingDecision1 (by decide) (by decide)).1
  exact h0.trans (by decide)

/-- The workflow has exactly four stages. -/
theorem steps_length : steps.length = 4 := rfl

/-- Every event keeps the current stage index at or below 3. -/
theorem step_stepIndex_le (s : ConciliationState) (a : UserAction)
    (h : s.currentStepIndex ≤ 3) : (step s a).currentStepIndex ≤ 3 := by
  cases a with
  | fileSelected f => cases f <;> simp [step, onFileSelected, h]
  | startImport =>
      cases hf : s.selectedFile <;>
        simp [step, Conciliation.startImport, hf, h]
  | importSucceeded stmt =>
      by_cases hi : s.isImporting <;> simp [step, hi, importSuccess, h]
  | importFailed =>
      by_cases hi : s.isImporting <;> simp [step, hi, importFailure, h]
  | launchMatch =>
      cases hs : s.statement <;>
        simp [step, launchAutomaticReconciliation, hs, h]
  | matchSucceeded resp =>
      by_cases hm : s.isMatching
      · cases hs : s.statement <;> simp [step, hm, hs, matchSuccess, h]
      · simp [step, hm, h]
  | matchFailed =>
      by_cases hm : s.isMatching <;> simp [step, hm, matchFailure, h]
  | goToManual =>
      by_cases hg : s.autoMatchExecuted = true <;>
        simp [step, goToManualStep, hg, h]
  | proceedConfirm =>
      by_cases hc : isManualStepComplete s = true <;>
        simp [step, proceedToConfirmation, hc, h]
  | navigate i =>
      by_cases hn : canAccessStep s i = true
      · have hi : i < steps.length := by
          by_contra hge
          simp [canAccessStep, Nat.not_lt.mp hge] at hn
        rw [steps_length] at hi
        simp [step, navigateToStep, hn]
        omega
      · simp [step, navigateToStep, hn, h]
  | toggleDecision operationId inc => simp [step, onManualDecisionToggle, h]
  | changeTransaction operationId v =>
      simp [step, onManualTransactionChange, h]
  | changeNote operationId v => simp [step, onManualNoteChange, h]
  | changeManualComment v => simp [step, onManualCommentChange, h]
  | acknowledge b => simp [step, onAcknowledgeChange, h]
  | changeFinalComment v => simp [step, onFinalCommentChange, h]
  | submit =>
      by_cases hc : canSubmitFinal s = true
      · cases hb : buildPayload s <;>
          simp [step, submitFinalValidation, hc, hb, h]
      · simp [step, submitFinalValidation, hc, h]
  | validateSucceeded r =>
      by_cases hv : s.isValidating <;> simp [step, hv, validateSuccess, h]
  | validateFailed =>
      by_cases hv : s.isValidating <;> simp [step, hv, validateFailure, h]

/-- Running any event list keeps the stage index at or below 3. -/
theorem run_stepIndex_le (tr : List UserAction) (s : ConciliationState)
    (h : s.currentStepIndex ≤ 3) : (run s tr).currentStepIndex ≤ 3 := by
  induction tr generalizing s with
  | nil => simpa [run]
  | cons a t ih => exact ih (step s a) (step_stepIndex_le s a h)

/-- Every reachable session state has stage index at most 3. -/
theorem reach_stepIndex_le (tr : List UserAction) :
    (reach tr).currentStepIndex ≤ 3 :=
  run_stepIndex_le tr initialState (by decide)

/-- C9: amended. In every reachable session state the progress value is
exactly `currentStepIndex / (stepCount - 1) * 100`, with no rounding
applied; because reachable stage indices never exceed 3 the value always
lies within `[0, 100]` without explicit clamping. (The code returns 100
outright when at most one step exists, a branch the fixed four-stage list
never exercises.) -/
theorem progress_exact_and_bounded (tr : List UserAction) :
    progress (reach tr) = ((reach tr).currentStepIndex : ℚ) / 3 * 100 ∧
      0 ≤ progress (reach tr) ∧ progress (reach tr) ≤ 100 := by
  have hp : progress (reach tr) =
      ((reach tr).currentStepIndex : ℚ) / 3 * 100 := by
    norm_num [progress, steps]
  have hle : ((reach tr).currentStepIndex : ℚ) ≤ 3 := by
    exact_mod_cast reach_stepIndex_le tr
  have hge : (0 : ℚ) ≤ ((reach tr).currentStepIndex : ℚ) := by positivity
  refine ⟨hp, ?_, ?_⟩ <;> rw [hp] <;> linarith

/-- The progress formula as the specification words it: the percentage
rounded to the nearest integer and clamped to `[0, 100]`, and 100 when only
one stage exists. -/
def progressPerSpec (index count : Nat) : ℚ :=
  if count ≤ 1 then 100
  else
    min 100 (max 0
      ((round (((index : ℚ) / ((count : ℚ) - 1)) * 100) : ℤ) : ℚ))

/-- C9: counterexample to the claim as stated. A session that has just
imported stands on stage index 1, where the code yields exactly 100/3 while
the rounded-and-clamped formula of the claim yields 33. -/
theorem progress_rounding_cex :
    (reach importTrace).currentStepIndex = 1 ∧
      progress (reach importTrace) = 100 / 3 ∧
      progressPerSpec (reach importTrace).currentStepIndex steps.length
        = 33 ∧
      progress (reach importTrace) ≠
        progressPerSpec (reach importTrace).currentStepIndex steps.length := by
  have hidx : (reach importTrace).currentStepIndex = 1 := by decide
  have h1 : progress (reach importTrace) = 100 / 3 := by
    norm_num [progress, steps, hidx]
  have h2 : progressPerSpec (reach importTrace).currentStepIndex steps.length
      = 33 := by
    rw [hidx, steps_length]
    rw [progressPerSpec]
    norm_num
    rw [round_eq]
    norm_num
  refine ⟨hidx, h1, h2, ?_⟩
  rw [h1, h2]
  norm_num

/-- Every event other than an explicit acknowledgement change keeps the
acknowledgement flag set once it is set. -/
theorem step_ack_preserved (s : ConciliationState) (a : UserAction)
    (h : s.acknowledgement = true)
    (ha : ∀ b, a ≠ UserAction.acknowledge b) :
    (step s a).acknowledgement = true := by
  cases a with
  | acknowledge b => exact absurd rfl (ha b)
  | fileSelected f => cases f <;> simp [step, onFileSelected, h]
  | startImport =>
      cases hf : s.selectedFile <;>
        simp [step, Conciliation.startImport, hf, h]
  | importSucceeded stmt =>
      by_cases hi : s.isImporting <;> simp [step, hi, importSuccess, h]
  | importFailed =>
      by_cases hi : s.isImporting <;> simp [step, hi, importFailure, h]
  | launchMatch =>
      cases hs : s.statement <;>
        simp [step, launchAutomaticReconciliation, hs, h]
  | matchSucceeded resp =>
      by_cases hm : s.isMatching
      · cases hs : s.statement <;> simp [step, hm, hs, matchSuccess, h]
      · simp [step, hm, h]
  | matchFailed =>
      by_cases hm : s.isMatching <;> simp [step, hm, matchFailure, h]
  | goToManual =>
      by_cases hg : s.autoMatchExecuted = true <;>
        simp [step, goToManualStep, hg, h]
  | proceedConfirm =>
      by_cases hc : isManualStepComplete s = true <;>
        simp [step, proceedToConfirmation, hc, h]
  | navigate i =>
      by_cases hn : canAccessStep s i = true <;>
        simp [step, navigateToStep, hn, h]
  | toggleDecision operationId inc => simp [step, onManualDecisionToggle, h]
  | changeTransaction operationId v =>
      simp [step, onManualTransactionChange, h]
  | changeNote operationId v => simp [step, onManualNoteChange, h]
  | changeManualComment v => simp [step, onManualCommentChange, h]
  | changeFinalComment v => simp [step, onFinalCommentChange, h]
  | submit =>
      by_cases hc : canSubmitFinal s = true
      · cases hb : buildPayload s <;>
          simp [step, submitFinalValidation, hc, hb, h]
      · simp [step, submitFinalValidation, hc, h]
  | validateSucceeded r =>
      by_cases hv : s.isValidating <;> simp [step, hv, validateSuccess, h]
  | validateFailed =>
      by_cases hv : s.isValidating <;> simp [step, hv, validateFailure, h]

/-- Running any event list free of acknowledgement changes keeps the
acknowledgement flag set. -/
theorem run_ack_preserved (tr : List UserAction) (s : ConciliationState)
    (hs : s.acknowledgement = true)
    (h : ∀ b, UserAction.acknowledge b ∉ tr) :
    (run s tr).acknowledgement = true := by
  induction tr generalizing s with
  | nil => simpa [run]
  | cons a t ih =>
      have ha : ∀ b, a ≠ UserAction.acknowledge b := by
        intro b hb
        exact h b (by simp [hb])
      exact ih (step s a)
        (step_ack_preserved s a hs ha)
        (fun b hb => h b (List.mem_cons_of_mem a hb))

/-- C10: confirmed. The acknowledgement flag starts out true, every
successful import resets it to true, and along any event sequence that
never explicitly changes the acknowledgement it stays true — so the
submission gate's acknowledgement precondition holds without the user ever
setting the flag. -/
theorem acknowledgement_defaults_true (tr : List UserAction)
    (h : ∀ b, UserAction.acknowledge b ∉ tr) :
    initialState.acknowledgement = true ∧
      (∀ (stmt : ConciliationStatement) (s : ConciliationState),
        (importSuccess stmt s).acknowledgement = true) ∧
      (reach tr).acknowledgement = true :=
  ⟨rfl, fun _ _ => rfl, run_ack_preserved tr initialState rfl h⟩

/-- Witness for `acknowledgement_defaults_true` along the concrete confirmed
session, whose trace never touches the acknowledgement. -/
theorem acknowledgement_defaults_true_witness :
    (reach confirmedTrace).acknowledgement = true :=
  (acknowledgement_defaults_true confirmedTrace (by decide)).2.2

end Conciliation
